import Mathlib

/-!
Shallow embedding of the StarSurf browser shell (src/starsurf.py).

The program is a thin tab-management layer over Qt's web-engine widget.
We embed the shell state (the `QTabWidget` contents, the current tab
index, the address-bar text and the window title) and translate each
method of `MainWindow` / `BrowserTab` into a Lean function.  Qt widget
behaviour that the code relies on (`QTabWidget.addTab`, `removeTab`,
`setCurrentIndex`, `widget`, and `QUrl` scheme parsing) is modelled
explicitly, following the documented Qt semantics:

  * `widget(i)` returns `None` when `i` is out of range;
  * `removeTab` adjusts the current index (the default
    `SelectRightTab` removal policy clamps the current index to the
    nearest remaining index) and emits `currentChanged` when the
    current index changes;
  * `setCurrentIndex(i)` does nothing unless `i` is a valid index that
    differs from the current one, in which case it emits
    `currentChanged(i)`;
  * adding a tab to an empty `QTabWidget` makes it current.

Python exceptions (calling a method on `None`) are embedded as
`Except.error`; URLs are modelled as plain strings.
-/

namespace StarSurf

/-- Configuration constant `DEFAULT_URL` (starsurf.py line 10). -/
def DEFAULT_URL : String := "https://www.google.com"

/-- Configuration constant `HOME_URL` (starsurf.py line 11). -/
def HOME_URL : String := "https://www.google.com"

/-- Engine-side state of one `BrowserTab` (`QWebEngineView`): the URL the
view reports via `url()` / was last given via `setUrl`, and the page
title it reports via `title()`. -/
structure BrowserTab where
  url : String
  title : String
deriving Repr, DecidableEq

/-- One slot of the `QTabWidget`: the `BrowserTab` widget page plus the
tab's displayed label text (`tabText`). -/
structure TabEntry where
  browser : BrowserTab
  label : String
deriving Repr, DecidableEq

/-- The `MainWindow` state: the ordered tabs of the `QTabWidget`, its
current index (`-1` when empty, as in Qt), the address-bar text
(`url_bar`) and the window title. -/
structure MainWindow where
  tabs : List TabEntry
  currentIndex : Int
  urlBarText : String
  windowTitle : String
deriving Repr, DecidableEq

/-- A freshly constructed `BrowserTab(...)`: no URL loaded, empty title. -/
def freshBrowserTab : BrowserTab := { url := "", title := "" }

/-- Model of `QTabWidget.widget(index)`: the page at `index`, or `None`
(`none`) when the index is out of range. -/
def MainWindow.widget (s : MainWindow) (index : Int) : Option TabEntry :=
  if 0 ≤ index then s.tabs.get? index.toNat else none

/-- `MainWindow.update_url_bar` (lines 134-140): ignore the event unless
the reporting browser is the current widget; otherwise show `q` in the
address bar.  A browser widget equals the current widget exactly when
its index equals the current index, so the reporting browser is passed
by its index. -/
def MainWindow.update_url_bar (s : MainWindow) (q : String) (browserIdx : Int) :
    MainWindow :=
  if browserIdx ≠ s.currentIndex then s
  else { s with urlBarText := q }

/-- `MainWindow.update_tab_title` (lines 112-119): look the browser up
with `indexOf`; when found, set that tab's label text, and additionally
set the window title when the browser is the current widget. -/
def MainWindow.update_tab_title (s : MainWindow) (title : String) (browserIdx : Int) :
    MainWindow :=
  match s.widget browserIdx with
  | none => s
  | some entry =>
    let s1 := { s with tabs := s.tabs.set browserIdx.toNat { entry with label := title } }
    if browserIdx = s1.currentIndex then
      { s1 with windowTitle := "Python Browser - " ++ title }
    else s1

/-- `MainWindow.update_ui_on_tab_change` (lines 146-151): on a
`currentChanged(index)` signal with `index != -1`, refresh the address
bar and the title from the browser at `index`.  The signal only fires
with `-1` or a valid index, so the out-of-range branch is unreachable
from the modelled callers. -/
def MainWindow.update_ui_on_tab_change (s : MainWindow) (index : Int) : MainWindow :=
  if index ≠ -1 then
    match s.widget index with
    | some entry =>
      (s.update_url_bar entry.browser.url index).update_tab_title entry.browser.title index
    | none => s
  else s

/-- Model of `QTabWidget.setCurrentIndex(i)`: a no-op unless `i` is a
valid index different from the current one; otherwise the current index
changes and `currentChanged(i)` fires, invoking the connected
`update_ui_on_tab_change` slot (line 45). -/
def MainWindow.setCurrentIndex (s : MainWindow) (index : Int) : MainWindow :=
  if 0 ≤ index ∧ index < (s.tabs.length : Int) ∧ index ≠ s.currentIndex then
    ({ s with currentIndex := index }).update_ui_on_tab_change index
  else s

/-- Model of `QTabWidget.addTab(widget, label)`: append the page and
return its index.  Adding to an empty widget makes the new tab current
and fires `currentChanged(0)`. -/
def MainWindow.addTabEntry (s : MainWindow) (entry : TabEntry) : Int × MainWindow :=
  let i : Int := s.tabs.length
  let s1 := { s with tabs := s.tabs ++ [entry] }
  if s.tabs.isEmpty then
    (i, ({ s1 with currentIndex := 0 }).update_ui_on_tab_change 0)
  else (i, s1)

/-- `MainWindow.add_new_tab` (lines 88-100): default the URL to
`DEFAULT_URL`, request navigation via `browser.setUrl(url)`, add the tab
with label "New Tab", and make it current. -/
def MainWindow.add_new_tab (s : MainWindow) (browser : BrowserTab) (url : Option String) :
    MainWindow :=
  let u := url.getD DEFAULT_URL
  let b := { browser with url := u }
  let p := s.addTabEntry { browser := b, label := "New Tab" }
  p.2.setCurrentIndex p.1

/-- Model of `QTabWidget.removeTab(index)`: remove the page at a valid
index (out of range is a no-op).  When the removed tab was current, the
default `SelectRightTab` policy selects the tab clamped to the nearest
remaining index and `currentChanged` fires; removing a tab before the
current one shifts the current index down by one, also firing
`currentChanged`. -/
def MainWindow.removeTabAt (s : MainWindow) (index : Int) : MainWindow :=
  if 0 ≤ index ∧ index < (s.tabs.length : Int) then
    let newTabs := s.tabs.eraseIdx index.toNat
    if index = s.currentIndex then
      if newTabs.isEmpty then
        { s with tabs := newTabs, currentIndex := -1 }
      else
        let newCur : Int := min index ((newTabs.length : Int) - 1)
        ({ s with tabs := newTabs, currentIndex := newCur }).update_ui_on_tab_change newCur
    else if index < s.currentIndex then
      ({ s with tabs := newTabs, currentIndex := s.currentIndex - 1 }).update_ui_on_tab_change
        (s.currentIndex - 1)
    else
      { s with tabs := newTabs }
  else s

/-- `MainWindow.close_tab` (lines 102-110): return early when fewer than
two tabs are open; otherwise fetch `widget(index)` and call
`deleteLater()` on it — when the index is out of range the widget is
`None` and Python raises `AttributeError`, embedded as `Except.error` —
then remove the tab. -/
def MainWindow.close_tab (s : MainWindow) (index : Int) : Except String MainWindow :=
  if s.tabs.length < 2 then
    .ok s
  else
    match s.widget index with
    | none => .error "AttributeError: NoneType object has no attribute deleteLater"
    | some _ => .ok (s.removeTabAt index)

/-- Characters allowed in a URL scheme after the leading letter
(RFC 3986, as accepted by `QUrl`). -/
def isSchemeChar (c : Char) : Bool :=
  c.isAlpha || c.isDigit || c == '+' || c == '-' || c == '.'

/-- The characters strictly before the first ':' of the input, or `none`
when the input has no ':'. -/
def schemeSplit : List Char → Option (List Char)
  | [] => none
  | c :: rest => if c = ':' then some [] else (schemeSplit rest).map (fun l => c :: l)

/-- Model of `QUrl(text).scheme()`: the lower-cased text before the
first ':' when that text is a well-formed scheme (non-empty, starts
with a letter, scheme characters only — which excludes '/', '?' and
'#'); otherwise the empty string. -/
def urlScheme (text : String) : String :=
  match schemeSplit text.toList with
  | none => ""
  | some [] => ""
  | some (c :: rest) =>
    if c.isAlpha && rest.all isSchemeChar then
      String.mk ((c :: rest).map Char.toLower)
    else ""

/-- The URL-resolution logic of `MainWindow.navigate_to_url`
(lines 123-130): keep the text when `QUrl` recognises a scheme in it;
otherwise prepend "https://" when the text contains a '.', and build a
Google-search URL from the verbatim text when it does not. -/
def resolveUrlText (text : String) : String :=
  if urlScheme text = "" then
    if text.toList.contains '.' then "https://" ++ text
    else "https://www.google.com/search?q=" ++ text
  else text

/-- `MainWindow.navigate_to_url` (lines 121-132): resolve the address-bar
text and call `setUrl` on the current widget.  With no current widget
(empty tab list) Python would raise `AttributeError`, embedded as
`Except.error`; the running shell never reaches that state. -/
def MainWindow.navigate_to_url (s : MainWindow) : Except String MainWindow :=
  let q := resolveUrlText s.urlBarText
  match s.widget s.currentIndex with
  | none => .error "AttributeError: NoneType object has no attribute setUrl"
  | some entry =>
    .ok { s with
      tabs := s.tabs.set s.currentIndex.toNat
        { entry with browser := { entry.browser with url := q } } }

/-- The engine emits `urlChanged(q)` for the tab at index `i` (connection
at line 96): the view's reported URL becomes `q` and the connected
`update_url_bar` slot runs.  Events for indices outside the tab list do
not occur. -/
def MainWindow.fireUrlChanged (s : MainWindow) (i : Int) (q : String) : MainWindow :=
  match s.widget i with
  | none => s
  | some entry =>
    let s1 := { s with
      tabs := s.tabs.set i.toNat { entry with browser := { entry.browser with url := q } } }
    s1.update_url_bar q i

/-- The engine emits `titleChanged(title)` for the tab at index `i`
(connection at line 97): the view's reported title becomes `title` and
the connected `update_tab_title` slot runs. -/
def MainWindow.fireTitleChanged (s : MainWindow) (i : Int) (title : String) : MainWindow :=
  match s.widget i with
  | none => s
  | some entry =>
    let s1 := { s with
      tabs := s.tabs.set i.toNat { entry with browser := { entry.browser with title := title } } }
    s1.update_tab_title title i

/-- The window-type argument of `QWebEngineView.createWindow`. -/
inductive WebWindowType
  | WebBrowserWindow
  | WebBrowserTab
  | WebDialog
  | WebBrowserBackgroundTab
deriving Repr, DecidableEq

/-- PySide6 resolution of the expression `QWebEngineView.WebBrowserWindow`
on line 25: the `WebWindowType` enum (`WebBrowserWindow`, ...) is defined
on `QWebEnginePage` in QtWebEngineCore, not on `QWebEngineView`, and only
`QWebEngineView` is imported — the attribute lookup raises
`AttributeError` whenever it is evaluated. -/
def qWebEngineViewWebBrowserWindow : Except String WebWindowType :=
  .error "AttributeError: type object QWebEngineView has no attribute WebBrowserWindow"

/-- `BrowserTab.createWindow` (lines 23-29): the comparison on line 25
first resolves `QWebEngineView.WebBrowserWindow`; that lookup raises on
every invocation, so the override raises before the comparison is made,
whatever the window kind: no tab is created, the shell state is
untouched, and no view handle is returned to the engine.  The branch
bodies of lines 26-29 (append a tab navigated to `QUrl(DEFAULT_URL)`
and return its view — the Bool — or fall through to the Qt default) are
kept in the translation but sit unreachably behind the failing lookup. -/
def MainWindow.createWindow (s : MainWindow) (t : WebWindowType) :
    Except String (MainWindow × Bool) :=
  match qWebEngineViewWebBrowserWindow with
  | .error msg => .error msg
  | .ok w =>
    if t = w then .ok (s.add_new_tab freshBrowserTab (some DEFAULT_URL), true)
    else .ok (s, false)

/-- `MainWindow.__init__` (lines 35-86), restricted to the embedded
state: an empty tab widget, window title "Python Browser", then the
initial `add_new_tab(BrowserTab(self), QUrl(DEFAULT_URL))`. -/
def MainWindow.startup : MainWindow :=
  let s0 : MainWindow :=
    { tabs := [], currentIndex := -1, urlBarText := "", windowTitle := "Python Browser" }
  s0.add_new_tab freshBrowserTab (some DEFAULT_URL)

/-- A user-level tab operation: the new-tab button / `add_new_tab`
callers (URL optional), or a close request on an index. -/
inductive ShellOp
  | addTab (url : Option String)
  | closeTab (index : Int)
deriving Repr

/-- Apply one operation to the shell.  A `close_tab` call that raises
(`Except.error`) leaves the shell state as it was: the exception
propagates out of the slot before any mutation. -/
def MainWindow.applyOp (s : MainWindow) : ShellOp → MainWindow
  | .addTab url => s.add_new_tab freshBrowserTab url
  | .closeTab i =>
    match s.close_tab i with
    | .ok s1 => s1
    | .error _ => s

/-- Run a sequence of tab operations from left to right. -/
def MainWindow.runOps (s : MainWindow) (ops : List ShellOp) : MainWindow :=
  ops.foldl MainWindow.applyOp s

/-! ### List helper lemmas -/

theorem list_get_set (l : List α) (i n : Nat) (a : α) :
    (l.set i a).get? n = if i = n then (l.get? n).map (fun _ => a) else l.get? n := by
  induction l generalizing i n with
  | nil => simp
  | cons x xs ih =>
    cases i with
    | zero => cases n <;> simp
    | succ i =>
      cases n with
      | zero => simp
      | succ n => simpa using ih i n

theorem list_len_eraseIdx (l : List α) (i : Nat) (h : i < l.length) :
    (l.eraseIdx i).length = l.length - 1 := by
  induction l generalizing i with
  | nil => simp at h
  | cons x xs ih =>
    cases i with
    | zero => simp [List.eraseIdx]
    | succ i =>
      simp only [List.eraseIdx, List.length_cons]
      rw [ih i (by simpa using h)]
      simp at h
      omega

theorem list_get_concat (l : List α) (a : α) : (l ++ [a]).get? l.length = some a := by
  induction l with
  | nil => rfl
  | cons x xs ih =>
    rw [List.cons_append, List.length_cons]
    exact ih

/-! ### Preservation lemmas for the UI-update handlers -/

namespace MainWindow

theorem widget_some_bounds {s : MainWindow} {i : Int} {entry : TabEntry}
    (h : s.widget i = some entry) :
    0 ≤ i ∧ i.toNat < s.tabs.length ∧ s.tabs.get? i.toNat = some entry := by
  unfold widget at h
  split at h
  · refine ⟨by assumption, ?_, h⟩
    by_contra hlen
    rw [List.get?_eq_none.2 (by omega)] at h
    exact Option.noConfusion h
  · exact Option.noConfusion h

theorem widget_none_of_oob {s : MainWindow} {i : Int}
    (h : i < 0 ∨ (s.tabs.length : Int) ≤ i) : s.widget i = none := by
  unfold widget
  split
  · exact List.get?_eq_none.2 (by omega)
  · rfl

theorem uub_tabs (s : MainWindow) (q : String) (i : Int) :
    (s.update_url_bar q i).tabs = s.tabs := by
  unfold update_url_bar; split <;> rfl

theorem uub_currentIndex (s : MainWindow) (q : String) (i : Int) :
    (s.update_url_bar q i).currentIndex = s.currentIndex := by
  unfold update_url_bar; split <;> rfl

theorem uub_windowTitle (s : MainWindow) (q : String) (i : Int) :
    (s.update_url_bar q i).windowTitle = s.windowTitle := by
  unfold update_url_bar; split <;> rfl

theorem utt_currentIndex (s : MainWindow) (t : String) (i : Int) :
    (s.update_tab_title t i).currentIndex = s.currentIndex := by
  unfold update_tab_title
  split
  · rfl
  · dsimp only
    split <;> rfl

theorem utt_urlBarText (s : MainWindow) (t : String) (i : Int) :
    (s.update_tab_title t i).urlBarText = s.urlBarText := by
  unfold update_tab_title
  split
  · rfl
  · dsimp only
    split <;> rfl

theorem utt_len (s : MainWindow) (t : String) (i : Int) :
    (s.update_tab_title t i).tabs.length = s.tabs.length := by
  unfold update_tab_title
  split
  · rfl
  · dsimp only
    split <;> simp

theorem utt_get_browser (s : MainWindow) (t : String) (i : Int) (n : Nat) :
    ((s.update_tab_title t i).tabs.get? n).map TabEntry.browser
      = (s.tabs.get? n).map TabEntry.browser := by
  unfold update_tab_title
  split
  · rfl
  · rename_i entry h
    have hb := widget_some_bounds h
    have hmain : ((s.tabs.set i.toNat { entry with label := t }).get? n).map TabEntry.browser
        = (s.tabs.get? n).map TabEntry.browser := by
      rw [list_get_set]
      split
      · rename_i he
        subst he
        rw [hb.2.2]
        rfl
      · rfl
    dsimp only
    split <;> exact hmain

theorem uiotc_currentIndex (s : MainWindow) (i : Int) :
    (s.update_ui_on_tab_change i).currentIndex = s.currentIndex := by
  unfold update_ui_on_tab_change
  split
  · split
    · rw [utt_currentIndex, uub_currentIndex]
    · rfl
  · rfl

theorem uiotc_urlBar_or (s : MainWindow) (i : Int) :
    (s.update_ui_on_tab_change i).urlBarText = s.urlBarText ∨
      ∃ entry, s.widget i = some entry ∧
        (s.update_ui_on_tab_change i).urlBarText = entry.browser.url := by
  unfold update_ui_on_tab_change update_url_bar
  split
  · split
    · rename_i entry h
      split
      · exact Or.inl (by rw [utt_urlBarText])
      · exact Or.inr ⟨entry, h, by rw [utt_urlBarText]⟩
    · exact Or.inl rfl
  · exact Or.inl rfl

theorem uiotc_len (s : MainWindow) (i : Int) :
    (s.update_ui_on_tab_change i).tabs.length = s.tabs.length := by
  unfold update_ui_on_tab_change
  split
  · split
    · rw [utt_len, uub_tabs]
    · rfl
  · rfl

theorem uiotc_get_browser (s : MainWindow) (i : Int) (n : Nat) :
    ((s.update_ui_on_tab_change i).tabs.get? n).map TabEntry.browser
      = (s.tabs.get? n).map TabEntry.browser := by
  unfold update_ui_on_tab_change
  split
  · split
    · rename_i entry h
      rw [utt_get_browser]
      rw [show ∀ q j, (s.update_url_bar q j).tabs = s.tabs from fun q j => uub_tabs s q j]
    · rfl
  · rfl

theorem sci_len (s : MainWindow) (i : Int) :
    (s.setCurrentIndex i).tabs.length = s.tabs.length := by
  unfold setCurrentIndex
  split
  · rw [uiotc_len]
  · rfl

theorem sci_get_browser (s : MainWindow) (i : Int) (n : Nat) :
    ((s.setCurrentIndex i).tabs.get? n).map TabEntry.browser
      = (s.tabs.get? n).map TabEntry.browser := by
  unfold setCurrentIndex
  split
  · rw [uiotc_get_browser]
  · rfl

theorem sci_currentIndex_of_valid (s : MainWindow) (i : Int)
    (h0 : 0 ≤ i) (h1 : i < (s.tabs.length : Int)) :
    (s.setCurrentIndex i).currentIndex = i := by
  unfold setCurrentIndex
  split
  · rw [uiotc_currentIndex]
  · rename_i hg
    push_neg at hg
    exact (hg h0 h1).symm

/-! ### Behaviour of `add_new_tab` -/

theorem add_new_tab_eq_nil (ci : Int) (ub wt : String) (b : BrowserTab) (url : Option String) :
    (MainWindow.add_new_tab ⟨[], ci, ub, wt⟩ b url)
      = ((⟨[⟨{ b with url := url.getD DEFAULT_URL }, "New Tab"⟩], 0, ub, wt⟩ :
          MainWindow).update_ui_on_tab_change 0).setCurrentIndex 0 := rfl

theorem add_new_tab_eq_cons (t : TabEntry) (ts : List TabEntry) (ci : Int) (ub wt : String)
    (b : BrowserTab) (url : Option String) :
    (MainWindow.add_new_tab ⟨t :: ts, ci, ub, wt⟩ b url)
      = (⟨(t :: ts) ++ [⟨{ b with url := url.getD DEFAULT_URL }, "New Tab"⟩], ci, ub, wt⟩ :
          MainWindow).setCurrentIndex ((t :: ts).length : Int) := rfl

theorem add_new_tab_spec (s : MainWindow) (b : BrowserTab) (url : Option String) :
    (s.add_new_tab b url).tabs.length = s.tabs.length + 1 ∧
    (s.add_new_tab b url).currentIndex = (s.tabs.length : Int) ∧
    ((s.add_new_tab b url).tabs.get? s.tabs.length).map TabEntry.browser
      = some { b with url := url.getD DEFAULT_URL } := by
  obtain ⟨tabs, ci, ub, wt⟩ := s
  cases tabs with
  | nil =>
    rw [add_new_tab_eq_nil]
    refine ⟨?_, ?_, ?_⟩
    · rw [sci_len, uiotc_len]
      rfl
    · refine sci_currentIndex_of_valid _ 0 (by omega) ?_
      rw [uiotc_len]
      simp
    · rw [sci_get_browser, uiotc_get_browser]
      rfl
  | cons t ts =>
    rw [add_new_tab_eq_cons]
    refine ⟨?_, ?_, ?_⟩
    · rw [sci_len]
      simp
    · refine sci_currentIndex_of_valid _ _ (by omega) ?_
      simp only [List.length_append, List.length_cons, List.length_nil]
      omega
    · rw [sci_get_browser]
      show (((t :: ts) ++ [_]).get? (t :: ts).length).map TabEntry.browser = _
      rw [list_get_concat]
      rfl

/-! ### Behaviour of `removeTabAt` and `close_tab` -/

theorem removeTabAt_len (s : MainWindow) (i : Int)
    (h0 : 0 ≤ i) (h1 : i < (s.tabs.length : Int)) :
    (s.removeTabAt i).tabs.length = s.tabs.length - 1 := by
  have he : (s.tabs.eraseIdx i.toNat).length = s.tabs.length - 1 :=
    list_len_eraseIdx s.tabs i.toNat (by omega)
  unfold removeTabAt
  rw [if_pos ⟨h0, h1⟩]
  dsimp only
  split
  · split
    · exact he
    · rw [uiotc_len]
      exact he
  · split
    · rw [uiotc_len]
      exact he
    · exact he

theorem removeTabAt_current_clamp (s : MainWindow)
    (h0 : 0 ≤ s.currentIndex) (h1 : s.currentIndex < (s.tabs.length : Int))
    (h2 : 2 ≤ s.tabs.length) :
    (s.removeTabAt s.currentIndex).currentIndex
      = min s.currentIndex ((s.tabs.length : Int) - 2) := by
  have he : (s.tabs.eraseIdx s.currentIndex.toNat).length = s.tabs.length - 1 :=
    list_len_eraseIdx s.tabs s.currentIndex.toNat (by omega)
  unfold removeTabAt
  rw [if_pos ⟨h0, h1⟩]
  dsimp only
  rw [if_pos rfl]
  split
  · rename_i hemp
    rw [List.isEmpty_iff] at hemp
    rw [hemp] at he
    simp at he
    omega
  · rw [uiotc_currentIndex]
    have : ((s.tabs.eraseIdx s.currentIndex.toNat).length : Int) - 1
        = (s.tabs.length : Int) - 2 := by
      rw [he]
      omega
    rw [this]

theorem applyOp_close (s : MainWindow) (i : Int) :
    s.applyOp (.closeTab i) = s ∨
    (2 ≤ s.tabs.length ∧ 0 ≤ i ∧ i < (s.tabs.length : Int) ∧
      s.applyOp (.closeTab i) = s.removeTabAt i) := by
  have hred : s.applyOp (.closeTab i)
      = match s.close_tab i with | .ok s1 => s1 | .error _ => s := rfl
  rw [hred]
  unfold close_tab
  by_cases hlen : s.tabs.length < 2
  · rw [if_pos hlen]
    exact Or.inl rfl
  · rw [if_neg hlen]
    cases hw : s.widget i with
    | none => exact Or.inl rfl
    | some entry =>
      have hb := widget_some_bounds hw
      exact Or.inr ⟨by omega, hb.1, by omega, rfl⟩

theorem applyOp_tabs_pos (s : MainWindow) (op : ShellOp) (h : 0 < s.tabs.length) :
    0 < (s.applyOp op).tabs.length := by
  cases op with
  | addTab url =>
    have hspec := (add_new_tab_spec s freshBrowserTab url).1
    show 0 < (s.add_new_tab freshBrowserTab url).tabs.length
    omega
  | closeTab i =>
    rcases applyOp_close s i with heq | ⟨h2, hi0, hi1, heq⟩
    · rw [heq]
      exact h
    · rw [heq, removeTabAt_len s i hi0 hi1]
      omega

theorem runOps_tabs_pos (ops : List ShellOp) (s : MainWindow) (h : 0 < s.tabs.length) :
    0 < (s.runOps ops).tabs.length := by
  induction ops generalizing s with
  | nil => exact h
  | cons op rest ih => exact ih _ (applyOp_tabs_pos s op h)

theorem startup_tabs_len : MainWindow.startup.tabs.length = 1 := by
  have h := (add_new_tab_spec
    ⟨[], -1, "", "Python Browser"⟩ freshBrowserTab (some DEFAULT_URL)).1
  show (MainWindow.add_new_tab ⟨[], -1, "", "Python Browser"⟩ freshBrowserTab
    (some DEFAULT_URL)).tabs.length = 1
  rw [h]
  rfl

end MainWindow



theorem list_map_set (l : List α) (n : Nat) (a : α) (f : α → β) :
    (l.set n a).map f = (l.map f).set n (f a) := by
  induction l generalizing n with
  | nil => rfl
  | cons x xs ih => cases n <;> simp [ih]

theorem list_set_self (l : List α) (n : Nat) (a : α) (h : l.get? n = some a) :
    l.set n a = l := by
  induction l generalizing n with
  | nil => rfl
  | cons x xs ih =>
    cases n with
    | zero =>
      injection h with hx
      rw [← hx]
      rfl
    | succ n =>
      show x :: xs.set n a = x :: xs
      rw [ih n h]

theorem list_get_map (l : List α) (n : Nat) (f : α → β) :
    (l.map f).get? n = (l.get? n).map f := by
  induction l generalizing n with
  | nil => rfl
  | cons x xs ih => cases n <;> simp [ih]

namespace MainWindow

theorem widget_some_of_bounds (s : MainWindow) (i : Int)
    (h0 : 0 ≤ i) (h1 : i < (s.tabs.length : Int)) :
    ∃ entry, s.widget i = some entry := by
  unfold widget
  rw [if_pos h0]
  cases hg : s.tabs.get? i.toNat with
  | none =>
    rw [List.get?_eq_none] at hg
    omega
  | some e => exact ⟨e, rfl⟩

theorem widget_none_bounds {s : MainWindow} {i : Int} (h : s.widget i = none) :
    i < 0 ∨ (s.tabs.length : Int) ≤ i := by
  unfold widget at h
  split at h
  · rw [List.get?_eq_none] at h
    omega
  · rename_i hneg
    omega

theorem widget_congr {s s2 : MainWindow} (i : Int) (h : s2.tabs = s.tabs) :
    s2.widget i = s.widget i := by
  unfold widget
  rw [h]

end MainWindow


theorem list_map_label_set (l : List TabEntry) (n : Nat) (e1 : TabEntry)
    (h : (l.map TabEntry.label).get? n = some e1.label) :
    (l.set n e1).map TabEntry.label = l.map TabEntry.label := by
  rw [list_map_set, list_set_self _ _ _ h]

theorem list_map_label_set_set (l : List TabEntry) (n : Nat) (e1 e2 : TabEntry)
    (h : (l.map TabEntry.label).get? n = some e1.label) :
    ((l.set n e1).set n e2).map TabEntry.label
      = (l.map TabEntry.label).set n e2.label := by
  rw [list_map_set, list_map_set, list_set_self _ _ _ h]

namespace MainWindow

theorem fireUrl_eq (s : MainWindow) (i : Int) (q : String) (entry : TabEntry)
    (hw : s.widget i = some entry) (hne : i ≠ s.currentIndex) :
    s.fireUrlChanged i q
      = { s with tabs := (s.tabs.set i.toNat
          { entry with browser := { entry.browser with url := q } }) } := by
  unfold MainWindow.fireUrlChanged
  rw [hw]
  dsimp only
  unfold MainWindow.update_url_bar
  rw [if_pos hne]

theorem fireTitle_eq (s : MainWindow) (i : Int) (t : String) (entry : TabEntry)
    (hw : s.widget i = some entry) (hne : i ≠ s.currentIndex) :
    s.fireTitleChanged i t
      = { s with tabs := ((s.tabs.set i.toNat
          { entry with browser := { entry.browser with title := t } }).set i.toNat
          ⟨{ entry.browser with title := t }, t⟩) } := by
  have hb := MainWindow.widget_some_bounds hw
  unfold MainWindow.fireTitleChanged
  rw [hw]
  dsimp only
  unfold MainWindow.update_tab_title
  have hw1 : (⟨s.tabs.set i.toNat { entry with browser := { entry.browser with title := t } },
      s.currentIndex, s.urlBarText, s.windowTitle⟩ : MainWindow).widget i
      = some { entry with browser := { entry.browser with title := t } } := by
    unfold MainWindow.widget
    rw [if_pos hb.1]
    dsimp only
    rw [list_get_set, if_pos rfl, hb.2.2]
    rfl
  rw [hw1]
  dsimp only
  rw [if_neg hne]

end MainWindow

/-! ### Claim theorems -/

/-- C1: starting from the startup state (which holds exactly one initial
tab), the tab collection of the shell is non-empty after every finite
sequence of add-tab / close-tab operations. -/
theorem c1_tabs_never_empty (ops : List ShellOp) :
    (MainWindow.startup.runOps ops).tabs ≠ [] := by
  have h := MainWindow.runOps_tabs_pos ops MainWindow.startup
    (by rw [MainWindow.startup_tabs_len]; omega)
  exact List.length_pos.mp h

/-- The one-tab shell used to witness C2. -/
def c2Shell : MainWindow :=
  ⟨[⟨⟨"https://a.test", "A"⟩, "A"⟩], 0, "https://a.test", "Python Browser - A"⟩

/-- C2: on a shell with exactly one tab, `close_tab` with any index
whatsoever returns the state unchanged (tabs and current index intact)
and raises no error. -/
theorem c2_close_last_tab_noop (s : MainWindow) (i : Int)
    (h : s.tabs.length = 1) : s.close_tab i = .ok s := by
  unfold MainWindow.close_tab
  rw [if_pos (by omega)]

/-- Witness for C2: the concrete one-tab shell with the out-of-range
index 7. -/
theorem c2_close_last_tab_noop_witness :
    c2Shell.tabs.length = 1 ∧ c2Shell.close_tab 7 = .ok c2Shell :=
  ⟨by decide, c2_close_last_tab_noop c2Shell 7 (by decide)⟩

/-- The two-tab shell used for C3. -/
def c3Shell : MainWindow :=
  ⟨[⟨⟨"https://a.test", "A"⟩, "A"⟩, ⟨⟨"https://b.test", "B"⟩, "B"⟩], 0,
    "https://a.test", "Python Browser - A"⟩

/-- C3 counterexample: on a concrete shell with two tabs, `close_tab 5`
(index out of range) raises an `AttributeError` — `widget(5)` is `None`
and `None.deleteLater()` fails — so the call is not the silent no-op the
claim states. -/
theorem c3_oob_close_raises :
    2 ≤ c3Shell.tabs.length ∧
    c3Shell.close_tab 5
      = .error "AttributeError: NoneType object has no attribute deleteLater" := by
  constructor
  · decide
  · rfl

/-- C3 amended: with at least two tabs, `close_tab` on an out-of-range
index raises an `AttributeError` (the error occurs on the `None` widget
before any mutation, so the tab list and the current index are untouched
when the exception propagates) rather than failing silently. -/
theorem c3_amended_oob_close_error (s : MainWindow) (i : Int)
    (h2 : 2 ≤ s.tabs.length) (hoob : i < 0 ∨ (s.tabs.length : Int) ≤ i) :
    s.close_tab i
      = .error "AttributeError: NoneType object has no attribute deleteLater" := by
  unfold MainWindow.close_tab
  rw [if_neg (by omega), MainWindow.widget_none_of_oob hoob]

/-- Witness for the amended C3: the two-tab shell with index -1. -/
theorem c3_amended_oob_close_error_witness :
    2 ≤ c3Shell.tabs.length ∧
    c3Shell.close_tab (-1)
      = .error "AttributeError: NoneType object has no attribute deleteLater" :=
  ⟨by decide,
    c3_amended_oob_close_error c3Shell (-1) (by decide) (Or.inl (by decide))⟩

/-- The one-tab shell used to witness C4. -/
def c4Shell : MainWindow :=
  ⟨[⟨⟨"https://start.test", "S"⟩, "S"⟩], 0, "example.com", "Python Browser - S"⟩

/-- C4: `navigate_to_url` resolves the address-bar text by the
scheme / dot / search precedence and passes the resolved URL to the
active tab via `setUrl`; in particular "example.com" resolves to
"https://example.com", "https://x.org" is kept unchanged, and
"hello world" becomes the verbatim, unencoded search URL. -/
theorem c4_address_resolution (s : MainWindow) (entry : TabEntry) (text : String)
    (hcur : s.widget s.currentIndex = some entry) :
    (∃ s', s.navigate_to_url = .ok s' ∧
      s'.tabs.get? s.currentIndex.toNat
        = some { entry with
            browser := { entry.browser with url := resolveUrlText s.urlBarText } }) ∧
    (urlScheme text ≠ "" → resolveUrlText text = text) ∧
    (urlScheme text = "" → text.toList.contains '.' = true →
      resolveUrlText text = "https://" ++ text) ∧
    (urlScheme text = "" → text.toList.contains '.' = false →
      resolveUrlText text = "https://www.google.com/search?q=" ++ text) ∧
    resolveUrlText "example.com" = "https://example.com" ∧
    resolveUrlText "https://x.org" = "https://x.org" ∧
    resolveUrlText "hello world" = "https://www.google.com/search?q=hello world" := by
  have hb := MainWindow.widget_some_bounds hcur
  refine ⟨?_, ?_, ?_, ?_, by decide, by decide, by decide⟩
  · exact Exists.intro
      { s with tabs := (s.tabs.set s.currentIndex.toNat
          { entry with
            browser := { entry.browser with url := resolveUrlText s.urlBarText } }) }
      (by
        constructor
        · unfold MainWindow.navigate_to_url
          rw [hcur]
        · dsimp only
          rw [list_get_set, if_pos rfl, hb.2.2]
          rfl)
  · intro h
    unfold resolveUrlText
    rw [if_neg h]
  · intro h hdot
    unfold resolveUrlText
    rw [if_pos h, if_pos hdot]
  · intro h hdot
    unfold resolveUrlText
    rw [if_pos h, if_neg (by rw [hdot]; decide)]

/-- Witness for C4: the concrete one-tab shell whose address bar holds
"example.com", with the query text "hello world". -/
theorem c4_address_resolution_witness :
    c4Shell.widget c4Shell.currentIndex = some ⟨⟨"https://start.test", "S"⟩, "S"⟩ ∧
    ((∃ s', c4Shell.navigate_to_url = .ok s' ∧
      s'.tabs.get? c4Shell.currentIndex.toNat
        = some ⟨⟨resolveUrlText c4Shell.urlBarText, "S"⟩, "S"⟩) ∧
    (urlScheme "hello world" ≠ "" → resolveUrlText "hello world" = "hello world") ∧
    (urlScheme "hello world" = "" → ("hello world").toList.contains '.' = true →
      resolveUrlText "hello world" = "https://" ++ "hello world") ∧
    (urlScheme "hello world" = "" → ("hello world").toList.contains '.' = false →
      resolveUrlText "hello world"
        = "https://www.google.com/search?q=" ++ "hello world") ∧
    resolveUrlText "example.com" = "https://example.com" ∧
    resolveUrlText "https://x.org" = "https://x.org" ∧
    resolveUrlText "hello world" = "https://www.google.com/search?q=hello world") :=
  ⟨by decide,
    c4_address_resolution c4Shell ⟨⟨"https://start.test", "S"⟩, "S"⟩ "hello world"
      (by decide)⟩

/-- C6: `add_new_tab` always succeeds: it appends a new tab at the end,
moves the current index to it, and initiates its navigation to the given
URL — or to the configured home URL (equal to the default URL) when the
URL is omitted. -/
theorem c6_add_tab_spec (s : MainWindow) (b : BrowserTab) (url : Option String) :
    (s.add_new_tab b url).tabs.length = s.tabs.length + 1 ∧
    (s.add_new_tab b url).currentIndex = (s.tabs.length : Int) ∧
    ((s.add_new_tab b url).tabs.get? s.tabs.length).map (fun e => e.browser.url)
      = some (url.getD DEFAULT_URL) ∧
    DEFAULT_URL = HOME_URL := by
  obtain ⟨h1, h2, h3⟩ := MainWindow.add_new_tab_spec s b url
  refine ⟨h1, h2, ?_, rfl⟩
  have hsplit : ((s.add_new_tab b url).tabs.get? s.tabs.length).map (fun e => e.browser.url)
      = (((s.add_new_tab b url).tabs.get? s.tabs.length).map TabEntry.browser).map
          BrowserTab.url := by
    cases (s.add_new_tab b url).tabs.get? s.tabs.length <;> rfl
  rw [hsplit, h3]
  rfl

/-- The two-tab shell used for C5 (active tab 0). -/
def c5Shell : MainWindow :=
  ⟨[⟨⟨"https://a.test", "A"⟩, "A"⟩, ⟨⟨"https://b.test", "B"⟩, "B"⟩], 0,
    "https://a.test", "Python Browser - A"⟩

/-- C5 counterexample: a title-changed event from the non-active tab 1
does change that tab's displayed label (`setTabText` runs for background
tabs too; only the window-title update is gated on the active tab), so
the claim that the displayed tab label is left unchanged is false. -/
theorem c5_background_title_event_changes_label :
    (1 : Int) ≠ c5Shell.currentIndex ∧
    c5Shell.tabs.map TabEntry.label = ["A", "B"] ∧
    (c5Shell.fireTitleChanged 1 "NEW").tabs.map TabEntry.label = ["A", "NEW"] :=
  ⟨by decide, by rfl, by rfl⟩

/-- C5 amended: a URL-changed event from a non-active tab changes none of
the address bar, the tab labels or the window title; a title-changed
event from a non-active tab leaves the address bar and the window title
unchanged but does update that tab's displayed label to the new title. -/
theorem c5_amended_background_events (s : MainWindow) (i : Int) (q t : String)
    (hne : i ≠ s.currentIndex) :
    (s.fireUrlChanged i q).urlBarText = s.urlBarText ∧
    (s.fireUrlChanged i q).tabs.map TabEntry.label = s.tabs.map TabEntry.label ∧
    (s.fireUrlChanged i q).windowTitle = s.windowTitle ∧
    (s.fireTitleChanged i t).urlBarText = s.urlBarText ∧
    (s.fireTitleChanged i t).windowTitle = s.windowTitle ∧
    (∀ entry, s.widget i = some entry →
      (s.fireTitleChanged i t).tabs.map TabEntry.label
        = (s.tabs.map TabEntry.label).set i.toNat t) := by
  cases hw : s.widget i with
  | none =>
    have hu : s.fireUrlChanged i q = s := by
      unfold MainWindow.fireUrlChanged
      rw [hw]
    have ht : s.fireTitleChanged i t = s := by
      unfold MainWindow.fireTitleChanged
      rw [hw]
    refine ⟨by rw [hu], by rw [hu], by rw [hu], by rw [ht], by rw [ht], ?_⟩
    intro entry hent
    exact Option.noConfusion hent
  | some entry =>
    have hb := MainWindow.widget_some_bounds hw
    have hu := MainWindow.fireUrl_eq s i q entry hw hne
    have ht := MainWindow.fireTitle_eq s i t entry hw hne
    have hlbl : (s.tabs.map TabEntry.label).get? i.toNat = some entry.label := by
      rw [list_get_map, hb.2.2]
      rfl
    refine ⟨by rw [hu], ?_, by rw [hu], by rw [ht], by rw [ht], ?_⟩
    · rw [hu]
      exact list_map_label_set s.tabs i.toNat _ hlbl
    · intro e he
      rw [ht]
      exact list_map_label_set_set s.tabs i.toNat _ _ hlbl

/-- Witness for the amended C5: the two-tab shell, events reported for
the non-active tab 1. -/
theorem c5_amended_background_events_witness :
    (c5Shell.fireUrlChanged 1 "https://new.test").urlBarText = c5Shell.urlBarText ∧
    (c5Shell.fireTitleChanged 1 "NEW").windowTitle = c5Shell.windowTitle ∧
    (c5Shell.fireTitleChanged 1 "NEW").tabs.map TabEntry.label
      = (c5Shell.tabs.map TabEntry.label).set 1 "NEW" :=
  ⟨(c5_amended_background_events c5Shell 1 "https://new.test" "NEW" (by decide)).1,
   (c5_amended_background_events c5Shell 1 "https://new.test" "NEW"
      (by decide)).2.2.2.2.1,
   (c5_amended_background_events c5Shell 1 "https://new.test" "NEW"
      (by decide)).2.2.2.2.2 ⟨⟨"https://b.test", "B"⟩, "B"⟩ (by decide)⟩

/-- The three-tab shell used to witness C7, whose active tab is the last. -/
def c7Shell : MainWindow :=
  ⟨[⟨⟨"https://a.test", "A"⟩, "A"⟩, ⟨⟨"https://b.test", "B"⟩, "B"⟩,
    ⟨⟨"https://c.test", "C"⟩, "C"⟩], 2, "https://c.test", "Python Browser - C"⟩

/-- C7: closing the active tab when at least two tabs are open succeeds
and leaves the current index on a valid remaining tab, namely the index
clamped to the nearest remaining one. -/
theorem c7_close_active_tab_valid (s : MainWindow)
    (h2 : 2 ≤ s.tabs.length) (h0 : 0 ≤ s.currentIndex)
    (h1 : s.currentIndex < (s.tabs.length : Int)) :
    ∃ s', s.close_tab s.currentIndex = .ok s' ∧
      s'.tabs.length = s.tabs.length - 1 ∧
      s'.currentIndex = min s.currentIndex ((s.tabs.length : Int) - 2) ∧
      0 ≤ s'.currentIndex ∧ s'.currentIndex < (s'.tabs.length : Int) := by
  obtain ⟨entry, hw⟩ := MainWindow.widget_some_of_bounds s s.currentIndex h0 h1
  have hok : s.close_tab s.currentIndex = .ok (s.removeTabAt s.currentIndex) := by
    unfold MainWindow.close_tab
    rw [if_neg (by omega), hw]
  have hlen := MainWindow.removeTabAt_len s s.currentIndex h0 h1
  have hcur := MainWindow.removeTabAt_current_clamp s h0 h1 h2
  refine ⟨s.removeTabAt s.currentIndex, hok, hlen, hcur, ?_, ?_⟩
  · rw [hcur]
    exact le_min h0 (by omega)
  · rw [hcur, hlen]
    have hc : ((s.tabs.length - 1 : Nat) : Int) = (s.tabs.length : Int) - 1 := by omega
    rw [hc]
    exact lt_of_le_of_lt (min_le_right _ _) (by omega)

/-- Witness for C7: the concrete three-tab shell; closing its active last
tab clamps the current index to 1. -/
theorem c7_close_active_tab_valid_witness :
    2 ≤ c7Shell.tabs.length ∧
    (∃ s', c7Shell.close_tab c7Shell.currentIndex = .ok s' ∧
      s'.tabs.length = c7Shell.tabs.length - 1 ∧
      s'.currentIndex = min c7Shell.currentIndex ((c7Shell.tabs.length : Int) - 2) ∧
      0 ≤ s'.currentIndex ∧ s'.currentIndex < (s'.tabs.length : Int)) :=
  ⟨by decide, c7_close_active_tab_valid c7Shell (by decide) (by decide) (by decide)⟩

/-- The two-tab shell used for C8.  Its address bar is stale: the user
typed "example.com" and navigation was requested (the active tab's URL
is already the resolved one), but the engine's URL-changed event has not
arrived yet. -/
def c8Shell : MainWindow :=
  ⟨[⟨⟨"https://example.com", "A"⟩, "A"⟩, ⟨⟨"https://b.test", "B"⟩, "B"⟩], 0,
    "example.com", "Python Browser - A"⟩

/-- C8 counterexample: index 0 is in range, yet switching to it — it is
already the current index — is a complete no-op: the address bar keeps
its stale text "example.com" instead of being refreshed to the active
tab's URL "https://example.com", so an in-range switchTab does not
always refresh the display. -/
theorem c8_same_index_switch_no_refresh :
    (0 : Int) ≤ 0 ∧ (0 : Int) < (c8Shell.tabs.length : Int) ∧
    c8Shell.setCurrentIndex 0 = c8Shell ∧
    (c8Shell.setCurrentIndex 0).urlBarText = "example.com" ∧
    c8Shell.widget 0 = some ⟨⟨"https://example.com", "A"⟩, "A"⟩ ∧
    "example.com" ≠ "https://example.com" :=
  ⟨by decide, by decide, by decide, by decide, by decide, by decide⟩

/-- C8 amended: switchTab to a valid index that differs from the current
one sets the current index and refreshes the address bar, the displayed
tab label and the window title from the newly active tab; switchTab to
an out-of-range index — or to the index that is already current — is a
no-op. -/
theorem c8_amended_switch_tab (s : MainWindow) (i : Int) :
    (∀ entry, s.widget i = some entry → i ≠ s.currentIndex →
      ((s.setCurrentIndex i).currentIndex = i ∧
       (s.setCurrentIndex i).urlBarText = entry.browser.url ∧
       (s.setCurrentIndex i).windowTitle = "Python Browser - " ++ entry.browser.title ∧
       (s.setCurrentIndex i).tabs.get? i.toNat
         = some ⟨entry.browser, entry.browser.title⟩)) ∧
    (s.widget i = none → s.setCurrentIndex i = s) ∧
    (i = s.currentIndex → s.setCurrentIndex i = s) := by
  refine ⟨?_, ?_, ?_⟩
  · intro entry hw hne
    have hb := MainWindow.widget_some_bounds hw
    have heq : s.setCurrentIndex i
        = { s with
            currentIndex := i
            urlBarText := entry.browser.url
            windowTitle := "Python Browser - " ++ entry.browser.title
            tabs := (s.tabs.set i.toNat ⟨entry.browser, entry.browser.title⟩) } := by
      unfold MainWindow.setCurrentIndex
      rw [if_pos ⟨hb.1, by omega, hne⟩]
      unfold MainWindow.update_ui_on_tab_change
      rw [if_pos (show i ≠ -1 by omega)]
      have hw2 : (⟨s.tabs, i, s.urlBarText, s.windowTitle⟩ : MainWindow).widget i
          = some entry := (MainWindow.widget_congr i rfl).trans hw
      rw [hw2]
      dsimp only
      unfold MainWindow.update_url_bar
      rw [if_neg (fun hc => hc rfl)]
      unfold MainWindow.update_tab_title
      have hw3 : (⟨s.tabs, i, entry.browser.url, s.windowTitle⟩ : MainWindow).widget i
          = some entry := (MainWindow.widget_congr i rfl).trans hw
      rw [hw3]
      dsimp only
      rw [if_pos rfl]
    rw [heq]
    refine ⟨rfl, rfl, rfl, ?_⟩
    dsimp only
    rw [list_get_set, if_pos rfl, hb.2.2]
    rfl
  · intro hnone
    unfold MainWindow.setCurrentIndex
    rw [if_neg ?_]
    intro hg
    rcases MainWindow.widget_none_bounds hnone with hh | hh
    · omega
    · exact absurd hg.2.1 (by omega)
  · intro hcur
    unfold MainWindow.setCurrentIndex
    rw [if_neg (fun hg => hg.2.2 hcur)]

/-- Witness for the amended C8: switching the concrete two-tab shell to
the non-current, in-range index 1 sets the index and refreshes the
display; switching to the current index 0 is a no-op. -/
theorem c8_amended_switch_tab_witness :
    ((c8Shell.setCurrentIndex 1).currentIndex = 1 ∧
     (c8Shell.setCurrentIndex 1).urlBarText = "https://b.test" ∧
     (c8Shell.setCurrentIndex 1).windowTitle = "Python Browser - B" ∧
     (c8Shell.setCurrentIndex 1).tabs.get? 1 = some ⟨⟨"https://b.test", "B"⟩, "B"⟩) ∧
    c8Shell.setCurrentIndex 0 = c8Shell :=
  ⟨(c8_amended_switch_tab c8Shell 1).1 ⟨⟨"https://b.test", "B"⟩, "B"⟩
      (by decide) (by decide),
   (c8_amended_switch_tab c8Shell 0).2.2 (by decide)⟩

/-- C9: the code contradicts this claim and its own docstring at line 24
("... by opening a new tab"): on an engine-initiated browser-window
request the override evaluates `QWebEngineView.WebBrowserWindow`, an
attribute PySide6 does not define, so `createWindow` raises
`AttributeError` — no tab session is created, nothing is appended, the
active tab does not change, and no view handle is returned to the
engine. -/
theorem c9_create_window_raises (s : MainWindow) :
    s.createWindow WebWindowType.WebBrowserWindow
      = .error
        "AttributeError: type object QWebEngineView has no attribute WebBrowserWindow" :=
  rfl

/-- C10: no engine-initiated new-window request ever creates a tab —
whatever window kind, link or target URL triggered it, the override
raises `AttributeError` before the comparison — so no newly created tab
exists to be navigated to the default URL: the hard-coded
`QUrl(DEFAULT_URL)` of line 27 is unreachable. -/
theorem c10_create_window_never_creates_tab (s : MainWindow) (t : WebWindowType) :
    s.createWindow t
      = .error
        "AttributeError: type object QWebEngineView has no attribute WebBrowserWindow" :=
  rfl

end StarSurf
